import Mathlib

/-!
Verification of the host-function binding layer of the parity-wasm
interpreter (`src/interpreter/host.rs`): value-conversion traits,
the one-parameter typed callable wrapper `Func1` with its type-erased
call entry point `call_as_any`, the `HostModuleBuilder`, and
`HostModule::allocate` registering items into the store.

External collaborators (the `elements` type descriptors, the interpreter
`Error` type, and the store) are not part of the given source file; they
are modelled from the specification, each marked `Modelled from the spec:`.
-/

set_option autoImplicit false

namespace HostSpec

/-- Modelled from the spec: the enumerated Semantic Value Type tag of
`elements::ValueType` (32-bit integer, 64-bit integer, 32-bit float,
64-bit float). -/
inductive ValueType where
  | I32
  | I64
  | F32
  | F64
deriving DecidableEq

/-- Modelled from the spec: the Tagged Runtime Value
(`interpreter::value::RuntimeValue`), a discriminated union carrying one
concrete value.  32-bit and 64-bit integers carry their integer value;
the float variants carry their raw bit pattern (never exercised here). -/
inductive RuntimeValue where
  | I32 (v : Int)
  | I64 (v : Int)
  | F32 (bits : Nat)
  | F64 (bits : Nat)
deriving DecidableEq

/-- Modelled from the spec: the Semantic Value Type tag carried by a
Tagged Runtime Value. -/
def RuntimeValue.value_type : RuntimeValue → ValueType
  | .I32 _ => .I32
  | .I64 _ => .I64
  | .F32 _ => .F32
  | .F64 _ => .F64

/-- Modelled from the spec: the interpreter's typed failure
(`interpreter::Error`), opaque to this layer; modelled as a message. -/
structure Error where
  msg : String
deriving DecidableEq

/-- Modelled from the spec: a Function Signature
(`elements::FunctionType`): ordered parameter Semantic Value Types plus
an optional return Semantic Value Type. -/
structure FunctionType where
  params : List ValueType
  ret : Option ValueType
deriving DecidableEq

/-- Embeds `FunctionType::new(params, return_type)`. -/
def FunctionType.new (params : List ValueType) (ret : Option ValueType) : FunctionType :=
  ⟨params, ret⟩

/-- Modelled from the spec: a global type descriptor
(`elements::GlobalType`): value type plus mutability. -/
structure GlobalType where
  content_type : ValueType
  is_mutable : Bool
deriving DecidableEq

/-- Modelled from the spec: a memory type descriptor
(`elements::MemoryType`): bounds/limits (initial and optional maximum). -/
structure MemoryType where
  initial : Nat
  maximum : Option Nat
deriving DecidableEq

/-- Modelled from the spec: a table type descriptor
(`elements::TableType`): limits (initial and optional maximum); the
element kind is uniform in WebAssembly 1.0 and is omitted. -/
structure TableType where
  initial : Nat
  maximum : Option Nat
deriving DecidableEq

/-- Outcome of a computation that may abort the process (a Rust panic)
rather than return. -/
inductive PanicOr (α : Type) where
  | panicked (msg : String)
  | value (a : α)

/-- True when the outcome is an abort. -/
def PanicOr.isPanic {α : Type} : PanicOr α → Prop
  | .panicked _ => True
  | .value _ => False

/-- A type-erased mutable reference (`&mut Any`): a runtime type code
drawn from a universe `C` interpreted by `I`, together with a value of
the coded type. -/
structure AnyMut (C : Type) (I : C → Type) where
  ty : C
  val : I ty

/-- Embeds `Any::downcast_mut::<St>()`: succeeds exactly when the erased value's
runtime type code equals the requested code. -/
def AnyMut.downcast_mut {C : Type} {I : C → Type} [DecidableEq C]
    (a : AnyMut C I) (c : C) : Option (I c) :=
  if h : a.ty = c then some (h ▸ a.val) else none

/-- The `FromArg` trait: conversion of a tagged runtime value into the
native parameter type, plus the Semantic Value Type it expects.
`from_arg` aborts (panics) on a tag mismatch, so its outcome is a
`PanicOr`. -/
class FromArg (α : Type) where
  from_arg : RuntimeValue → PanicOr α
  value_type : ValueType

/-- Embeds `impl FromArg for i32`: `RuntimeValue::I32(v) => v`, any other tag
panics; the value type is `I32`. -/
instance : FromArg Int where
  from_arg arg :=
    match arg with
    | .I32 v => .value v
    | _ => .panicked "Expected I32, got something else"
  value_type := .I32

/-- The `AsReturnVal` trait: conversion of a native return value into an
optional tagged runtime value, plus the Semantic Value Type such a
return occupies (or none). -/
class AsReturnVal (α : Type) where
  as_return_val : α → Option RuntimeValue
  value_type : Option ValueType

/-- Embeds `impl AsReturnVal for i32`: `Some(self.into())`; value type `Some(I32)`. -/
instance : AsReturnVal Int where
  as_return_val v := some (.I32 v)
  value_type := some .I32

/-- Embeds `impl AsReturnVal for ()`: `None`; value type `None`. -/
instance : AsReturnVal Unit where
  as_return_val _ := none
  value_type := none

/-- The one-parameter typed callable wrapper `Func1<Cl, St, Ret, P1>`,
holding a native closure over the host-state type.  The `&mut St`
mutation is modelled by state passing: the closure returns the updated
state together with its `Result<Option<Ret>, Error>`. -/
structure Func1 (C : Type) (I : C → Type) (s : C) (R P : Type) where
  closure : I s → P → I s × Except Error (Option R)

/-- Embeds `Func1::call_as_any`: downcast the type-erased host state (panics on
the wrong concrete type), read `args[0]` (panics when absent), convert
it through `FromArg` (panics on a tag mismatch), invoke the closure, and
map the result through `AsReturnVal`, propagating closure failures
unchanged. -/
def Func1.call_as_any {C : Type} {I : C → Type} [DecidableEq C] {s : C}
    {R P : Type} [AsReturnVal R] [FromArg P]
    (f : Func1 C I s R P) (state : AnyMut C I) (args : List RuntimeValue) :
    PanicOr (AnyMut C I × Except Error (Option RuntimeValue)) :=
  match state.downcast_mut s with
  | none => .panicked "downcast of host state to concrete type failed"
  | some st =>
    match args[0]? with
    | none => .panicked "argument index out of bounds"
    | some a0 =>
      match FromArg.from_arg (α := P) a0 with
      | .panicked m => .panicked m
      | .value p1 =>
        let res := f.closure st p1
        .value (⟨s, res.1⟩, res.2.map fun r => r.bind AsReturnVal.as_return_val)

/-- Embeds `Func1::derive_func_type`: one parameter of `P1`'s `FromArg` value
type, and `Ret`'s `AsReturnVal` value type as the return. -/
def Func1.derive_func_type (R P : Type) [AsReturnVal R] [FromArg P] : FunctionType :=
  FunctionType.new [FromArg.value_type (α := P)] (AsReturnVal.value_type (α := R))

/-- The type-erased callable interface `AnyFunc`: uniform call contract
taking the erased host state and the tagged argument sequence. -/
def AnyFunc (C : Type) (I : C → Type) : Type :=
  AnyMut C I → List RuntimeValue →
    PanicOr (AnyMut C I × Except Error (Option RuntimeValue))

/-- A Pending Export Item (`HostItem`): function, global, memory or
table, each under an export name. -/
inductive HostItem (C : Type) (I : C → Type) where
  | func (name : String) (func_type : FunctionType) (host_func : AnyFunc C I)
  | global (name : String) (global_type : GlobalType) (init_val : RuntimeValue)
  | memory (name : String) (memory_type : MemoryType)
  | table (name : String) (table_type : TableType)

/-- The export name of a pending item. -/
def HostItem.name {C : Type} {I : C → Type} : HostItem C I → String
  | .func n _ _ => n
  | .global n _ _ => n
  | .memory n _ => n
  | .table n _ => n

/-- Embeds `HostModule`: the frozen, immutable result of the builder — an
ordered sequence of Pending Export Items. -/
structure HostModule (C : Type) (I : C → Type) where
  items : List (HostItem C I)

/-- Embeds `HostModuleBuilder<St>`: accumulates pending export items for one
host-state type (here the type code `s`, playing the `PhantomData<St>`
role). -/
structure HostModuleBuilder (C : Type) (I : C → Type) (s : C) where
  items : List (HostItem C I)

/-- Embeds `HostModuleBuilder::new`. -/
def HostModuleBuilder.new {C : Type} {I : C → Type} {s : C} :
    HostModuleBuilder C I s :=
  ⟨[]⟩

/-- Embeds `HostModuleBuilder::with_func1`: derive the signature from the
closure's types, wrap the closure as a type-erased callable, and append
a function item.  `self` mutation (`push`) is modelled by returning the
grown builder. -/
def HostModuleBuilder.with_func1 {C : Type} {I : C → Type} [DecidableEq C]
    {s : C} {R P : Type} [AsReturnVal R] [FromArg P]
    (b : HostModuleBuilder C I s) (name : String)
    (f : I s → P → I s × Except Error (Option R)) : HostModuleBuilder C I s :=
  ⟨b.items ++ [.func name (Func1.derive_func_type R P) (Func1.mk f).call_as_any]⟩

/-- Embeds `HostModuleBuilder::with_global`. -/
def HostModuleBuilder.with_global {C : Type} {I : C → Type} {s : C}
    (b : HostModuleBuilder C I s) (name : String) (global_type : GlobalType)
    (init_val : RuntimeValue) : HostModuleBuilder C I s :=
  ⟨b.items ++ [.global name global_type init_val]⟩

/-- Embeds `HostModuleBuilder::with_memory`. -/
def HostModuleBuilder.with_memory {C : Type} {I : C → Type} {s : C}
    (b : HostModuleBuilder C I s) (name : String) (memory_type : MemoryType) :
    HostModuleBuilder C I s :=
  ⟨b.items ++ [.memory name memory_type]⟩

/-- Embeds `HostModuleBuilder::with_table`. -/
def HostModuleBuilder.with_table {C : Type} {I : C → Type} {s : C}
    (b : HostModuleBuilder C I s) (name : String) (table_type : TableType) :
    HostModuleBuilder C I s :=
  ⟨b.items ++ [.table name table_type]⟩

/-- Embeds `HostModuleBuilder::build`: freeze the builder into a Host Module. -/
def HostModuleBuilder.build {C : Type} {I : C → Type} {s : C}
    (b : HostModuleBuilder C I s) : HostModule C I :=
  ⟨b.items⟩

/-- Modelled from the spec: an Export Identifier
(`interpreter::store::ExternVal`): an opaque store handle of one of the
four kinds, modelled as the store index it was allocated at. -/
inductive ExternVal where
  | func (id : Nat)
  | global (id : Nat)
  | memory (id : Nat)
  | table (id : Nat)
deriving DecidableEq

/-- The export mapping: name to Export Identifier, with `HashMap::insert`
overwrite semantics. -/
abbrev ExportMap : Type := List (String × ExternVal)

/-- Modelled from the spec: `HashMap::insert` — replaces the value of an
existing key in place, otherwise appends a fresh entry. -/
def insertExport : ExportMap → String → ExternVal → ExportMap
  | [], k, v => [(k, v)]
  | (k0, v0) :: rest, k, v =>
      if k0 = k then (k, v) :: rest else (k0, v0) :: insertExport rest k v

/-- Number of entries in an export mapping under a given name. -/
def countName (m : ExportMap) (n : String) : Nat :=
  (m.filter fun p => p.1 = n).length

/-- Modelled from the spec: a Module Instance
(`interpreter::store::ModuleInstance`): a resolved name-to-export
mapping. -/
structure ModuleInstance where
  exports : ExportMap

/-- Embeds `ModuleInstance::with_exports`. -/
def ModuleInstance.with_exports (exports : ExportMap) : ModuleInstance :=
  ⟨exports⟩

/-- Modelled from the spec: the Store (`interpreter::store::Store`), the
allocation authority owning functions, globals, memories, tables and
module instances, identified by indices into its arenas. -/
structure Store (C : Type) (I : C → Type) where
  func_types : List FunctionType
  funcs : List (Nat × AnyFunc C I)
  globals : List (GlobalType × RuntimeValue)
  memories : List MemoryType
  tables : List TableType
  modules : List ModuleInstance

/-- The store with empty arenas. -/
def Store.empty (C : Type) (I : C → Type) : Store C I :=
  ⟨[], [], [], [], [], []⟩

/-- Modelled from the spec: `Store::alloc_func_type` — allocate a
function-type descriptor, returning its type identifier (infallible). -/
def Store.alloc_func_type {C : Type} {I : C → Type} (st : Store C I)
    (ft : FunctionType) : Store C I × Nat :=
  ({ st with func_types := st.func_types ++ [ft] }, st.func_types.length)

/-- Modelled from the spec: `Store::alloc_host_func` — allocate a
host-backed function from a type identifier and a shared type-erased
callable, returning its function identifier (infallible). -/
def Store.alloc_host_func {C : Type} {I : C → Type} (st : Store C I)
    (type_id : Nat) (hf : AnyFunc C I) : Store C I × Nat :=
  ({ st with funcs := st.funcs ++ [(type_id, hf)] }, st.funcs.length)

/-- Modelled from the spec: `Store::alloc_global` — allocate a global
with its descriptor and initial tagged value (infallible in the shown
design). -/
def Store.alloc_global {C : Type} {I : C → Type} (st : Store C I)
    (gt : GlobalType) (init_val : RuntimeValue) : Store C I × Nat :=
  ({ st with globals := st.globals ++ [(gt, init_val)] }, st.globals.length)

/-- Modelled from the spec: a memory descriptor is invalid when its
minimum exceeds its declared maximum. -/
def MemoryType.valid (mt : MemoryType) : Bool :=
  match mt.maximum with
  | some mx => mt.initial ≤ mx
  | none => true

/-- Modelled from the spec: a table descriptor is invalid when its
minimum exceeds its declared maximum. -/
def TableType.valid (tt : TableType) : Bool :=
  match tt.maximum with
  | some mx => tt.initial ≤ mx
  | none => true

/-- Modelled from the spec: `Store::alloc_memory` — fallible; an invalid
descriptor whose minimum exceeds its maximum is rejected, leaving the
store unchanged by the failed call. -/
def Store.alloc_memory {C : Type} {I : C → Type} (st : Store C I)
    (mt : MemoryType) : Except Error (Store C I × Nat) :=
  if mt.valid then
    .ok ({ st with memories := st.memories ++ [mt] }, st.memories.length)
  else .error ⟨"memory: minimum exceeds maximum"⟩

/-- Modelled from the spec: `Store::alloc_table` — fallible; an invalid
descriptor whose minimum exceeds its maximum is rejected, leaving the
store unchanged by the failed call. -/
def Store.alloc_table {C : Type} {I : C → Type} (st : Store C I)
    (tt : TableType) : Except Error (Store C I × Nat) :=
  if tt.valid then
    .ok ({ st with tables := st.tables ++ [tt] }, st.tables.length)
  else .error ⟨"table: minimum exceeds maximum"⟩

/-- Modelled from the spec: `Store::add_module_instance` — register a
module instance, returning its module identifier. -/
def Store.add_module_instance {C : Type} {I : C → Type} (st : Store C I)
    (inst : ModuleInstance) : Store C I × Nat :=
  ({ st with modules := st.modules ++ [inst] }, st.modules.length)

/-- The module instance registered under a module identifier. -/
def Store.getModule {C : Type} {I : C → Type} (st : Store C I) (id : Nat) :
    Option ModuleInstance :=
  st.modules[id]?

/-- The per-item body of the `HostModule::allocate` loop: call the
matching store allocation and produce the item's Export Identifier.
Funcs and globals are infallible; memory and table allocation propagate
the store's failure. -/
def allocateItem {C : Type} {I : C → Type} (store : Store C I) :
    HostItem C I → Except Error (Store C I × ExternVal)
  | .func _ func_type host_func =>
      let r1 := store.alloc_func_type func_type
      let r2 := r1.1.alloc_host_func r1.2 host_func
      .ok (r2.1, .func r2.2)
  | .global _ global_type init_val =>
      let r := store.alloc_global global_type init_val
      .ok (r.1, .global r.2)
  | .memory _ memory_type =>
      (store.alloc_memory memory_type).map fun r => (r.1, .memory r.2)
  | .table _ table_type =>
      (store.alloc_table table_type).map fun r => (r.1, .table r.2)

/-- The `HostModule::allocate` loop over the item sequence, threading the
store and the accumulated export mapping.  A failing allocation stops
the loop at once, returning the store as mutated so far (the `?`
operator returns early out of a `&mut Store` borrow: nothing is rolled
back); on success the exports become a module instance handed to the
store's module registry. -/
def allocateGo {C : Type} {I : C → Type} (store : Store C I)
    (exports : ExportMap) : List (HostItem C I) → Store C I × Except Error Nat
  | [] =>
      let r := store.add_module_instance (ModuleInstance.with_exports exports)
      (r.1, .ok r.2)
  | item :: rest =>
      match allocateItem store item with
      | .error e => (store, .error e)
      | .ok (store1, ev) => allocateGo store1 (insertExport exports item.name ev) rest

/-- Embeds `HostModule::allocate`: register every item into the store and
return the module identifier of the resulting instance, or the first
failure. -/
def HostModule.allocate {C : Type} {I : C → Type} (m : HostModule C I)
    (store : Store C I) : Store C I × Except Error Nat :=
  allocateGo store [] m.items

/-- Spec-side helper for stating prefix hypotheses: run the allocation
loop body over a sequence of items tracking only the store, `.ok` when
every allocation in the sequence succeeds. -/
def runItems {C : Type} {I : C → Type} (store : Store C I) :
    List (HostItem C I) → Except Error (Store C I)
  | [] => .ok store
  | item :: rest =>
      match allocateItem store item with
      | .error e => .error e
      | .ok (store1, _) => runItems store1 rest

/-- A small universe of host-state type codes for concrete
instantiations: a unit state and a counter state. -/
inductive DemoCode where
  | unitSt
  | natSt
deriving DecidableEq

/-- Interpretation of the demo type codes. -/
def demoInterp : DemoCode → Type
  | .unitSt => Unit
  | .natSt => Nat

/-- The end-to-end test closure: one 32-bit integer parameter,
returning `Ok(Some(x + 1))`. -/
def addOneCl : Unit → Int → Unit × Except Error (Option Int) :=
  fun st x => (st, .ok (some (x + 1)))

/-- The type-erased callable wrapping `addOneCl` for host state `Unit`. -/
def addOneCallable : AnyFunc DemoCode demoInterp :=
  (Func1.mk (C := DemoCode) (I := demoInterp) (s := DemoCode.unitSt) addOneCl).call_as_any

/-- The host module built by registering `addOneCl` under the export
name `add_one` and freezing the builder. -/
def addOneModule : HostModule DemoCode demoInterp :=
  ((HostModuleBuilder.new (C := DemoCode) (I := demoInterp)
    (s := DemoCode.unitSt)).with_func1 "add_one" addOneCl).build

/-- A closure that always returns a typed failure. -/
def failCl : Unit → Int → Unit × Except Error (Option Int) :=
  fun st _ => (st, .error ⟨"boom"⟩)

/-- Downcasting an erased value at its own type code succeeds with the
carried value. -/
theorem downcast_mut_self {C : Type} {I : C → Type} [DecidableEq C]
    (c : C) (v : I c) : (AnyMut.mk c v).downcast_mut c = some v := by
  simp [AnyMut.downcast_mut]

/-- C1: the host module built by registering the `add_one` closure under
name `add_one` holds exactly that function item, and invoking its
type-erased callable with the correct host-state type and the single
argument `I32 41` returns `Ok(Some(I32 42))`. -/
theorem c1_add_one_end_to_end :
    addOneModule.items =
      [HostItem.func "add_one" (FunctionType.new [ValueType.I32] (some ValueType.I32))
        addOneCallable]
    ∧ addOneCallable ⟨DemoCode.unitSt, ()⟩ [RuntimeValue.I32 41] =
        PanicOr.value (⟨DemoCode.unitSt, ()⟩, Except.ok (some (RuntimeValue.I32 42))) :=
  ⟨rfl, rfl⟩

/-- C2: `with_func1` registers a function item whose derived signature
has exactly one parameter, equal to the parameter type's `FromArg` value
type, and whose return is the return type's `AsReturnVal` value type
(hence present iff that is non-empty); in particular `Some(I32)` for
`i32` and no return type for `()`. -/
theorem c2_with_func1_signature {C : Type} {I : C → Type} [DecidableEq C]
    {s : C} {R P : Type} [AsReturnVal R] [FromArg P]
    (b : HostModuleBuilder C I s) (name : String)
    (f : I s → P → I s × Except Error (Option R)) :
    (b.with_func1 name f).items =
      b.items ++ [HostItem.func name
        (FunctionType.new [FromArg.value_type (α := P)] (AsReturnVal.value_type (α := R)))
        (Func1.mk f).call_as_any]
    ∧ (Func1.derive_func_type R P).params = [FromArg.value_type (α := P)]
    ∧ ((Func1.derive_func_type R P).ret.isSome ↔ (AsReturnVal.value_type (α := R)).isSome)
    ∧ Func1.derive_func_type Int Int = FunctionType.new [ValueType.I32] (some ValueType.I32)
    ∧ Func1.derive_func_type Unit Int = FunctionType.new [ValueType.I32] none :=
  ⟨rfl, rfl, Iff.rfl, rfl, rfl⟩

/-- C7: for the shown native scalar type (32-bit signed integer), the
Semantic Value Type reported by `AsReturnVal::value_type` equals the one
reported by `FromArg::value_type` (signature symmetry). -/
theorem c7_value_type_symmetry :
    AsReturnVal.value_type (α := Int) = some (FromArg.value_type (α := Int))
    ∧ FromArg.value_type (α := Int) = ValueType.I32 :=
  ⟨rfl, rfl⟩

/-- C10: `call_as_any` on a one-parameter wrapper depends only on the
first argument — trailing arguments beyond the arity give the same
result as the singleton argument sequence, so they are ignored and
never cause a failure. -/
theorem c10_trailing_args_ignored {C : Type} {I : C → Type} [DecidableEq C]
    {s : C} {R P : Type} [AsReturnVal R] [FromArg P]
    (f : Func1 C I s R P) (state : AnyMut C I) (a0 : RuntimeValue)
    (rest : List RuntimeValue) :
    f.call_as_any state (a0 :: rest) = f.call_as_any state [a0] := by
  simp [Func1.call_as_any]

/-- Computation of `call_as_any` on a matching host state and a
successfully converting first argument: the closure runs and its result
is mapped through `AsReturnVal`. -/
theorem call_as_any_cons {C : Type} {I : C → Type} [DecidableEq C]
    {s : C} {R P : Type} [AsReturnVal R] [FromArg P]
    (f : Func1 C I s R P) (st : I s) (a0 : RuntimeValue)
    (rest : List RuntimeValue) (p1 : P)
    (harg : FromArg.from_arg a0 = PanicOr.value p1) :
    f.call_as_any ⟨s, st⟩ (a0 :: rest) =
      PanicOr.value (⟨s, (f.closure st p1).1⟩,
        (f.closure st p1).2.map fun r => r.bind AsReturnVal.as_return_val) := by
  simp [Func1.call_as_any, downcast_mut_self, harg]

/-- C5: when the wrapped closure returns a failure, `call_as_any` with
the correct host-state type and a converting first argument returns
exactly that failure, unchanged. -/
theorem c5_closure_failure_propagated {C : Type} {I : C → Type} [DecidableEq C]
    {s : C} {R P : Type} [AsReturnVal R] [FromArg P]
    (f : Func1 C I s R P) (st : I s) (a0 : RuntimeValue)
    (rest : List RuntimeValue) (p1 : P) (st2 : I s) (e : Error)
    (harg : FromArg.from_arg a0 = PanicOr.value p1)
    (hcl : f.closure st p1 = (st2, Except.error e)) :
    f.call_as_any ⟨s, st⟩ (a0 :: rest) =
      PanicOr.value (⟨s, st2⟩, Except.error e) := by
  rw [call_as_any_cons f st a0 rest p1 harg, hcl]
  rfl

/-- Witness for C5: a concrete always-failing closure propagates its
failure message through the call boundary. -/
theorem c5_witness :
    (Func1.mk (C := DemoCode) (I := demoInterp) (s := DemoCode.unitSt)
        failCl).call_as_any ⟨DemoCode.unitSt, ()⟩ [RuntimeValue.I32 0] =
      PanicOr.value (⟨DemoCode.unitSt, ()⟩, Except.error ⟨"boom"⟩) :=
  c5_closure_failure_propagated (C := DemoCode) (I := demoInterp) (s := DemoCode.unitSt)
    (Func1.mk failCl) () (RuntimeValue.I32 0) [] (0 : Int) () ⟨"boom"⟩ rfl rfl

/-- C6: the `i32` implementation of `FromArg` returns the carried value
for every `I32`-tagged runtime value, and aborts (panics) on every value
with any other tag. -/
theorem c6_from_arg_i32 :
    (∀ v : Int, FromArg.from_arg (RuntimeValue.I32 v) = PanicOr.value v)
    ∧ ∀ rv : RuntimeValue, (∀ v : Int, rv ≠ RuntimeValue.I32 v) →
        (FromArg.from_arg (α := Int) rv).isPanic := by
  refine ⟨fun v => rfl, fun rv h => ?_⟩
  cases rv with
  | I32 v => exact absurd rfl (h v)
  | I64 v => trivial
  | F32 b => trivial
  | F64 b => trivial

/-- Witness for C6: an `F64`-tagged value is not `I32`-tagged, and its
conversion through the `i32` implementation aborts. -/
theorem c6_witness :
    (FromArg.from_arg (α := Int) (RuntimeValue.F64 0)).isPanic :=
  c6_from_arg_i32.2 (RuntimeValue.F64 0) (fun _ h => RuntimeValue.noConfusion h)

/-- C8: for the one-parameter wrapper over the shown parameter type
(32-bit integer), whenever the erased host state carries the wrapper's
concrete state type and the argument sequence matches the registered
Function Signature in count and types, `call_as_any` does not abort: it
produces an updated state together with an optional tagged runtime
value or a typed failure. -/
theorem c8_call_as_any_total {C : Type} {I : C → Type} [DecidableEq C]
    {s : C} {R : Type} [AsReturnVal R]
    (f : Func1 C I s R Int) (state : AnyMut C I) (args : List RuntimeValue)
    (hstate : state.ty = s)
    (hargs : args.map RuntimeValue.value_type = (Func1.derive_func_type R Int).params) :
    ∃ r, f.call_as_any state args = PanicOr.value r := by
  obtain ⟨ty, v⟩ := state
  cases hstate
  match args with
  | [] => simp [Func1.derive_func_type, FunctionType.new] at hargs
  | a0 :: a1 :: rest => simp [Func1.derive_func_type, FunctionType.new] at hargs
  | [a0] =>
    simp [Func1.derive_func_type, FunctionType.new] at hargs
    cases a0 with
    | I32 w => exact ⟨_, call_as_any_cons f v (RuntimeValue.I32 w) [] w rfl⟩
    | I64 w => simp [RuntimeValue.value_type] at hargs
    | F32 b => simp [RuntimeValue.value_type] at hargs
    | F64 b => simp [RuntimeValue.value_type] at hargs

/-- A successful per-item allocation never touches the store's module
registry. -/
theorem allocateItem_modules {C : Type} {I : C → Type}
    (store store1 : Store C I) (item : HostItem C I) (ev : ExternVal)
    (h : allocateItem store item = .ok (store1, ev)) :
    store1.modules = store.modules := by
  cases item with
  | func n ft hf =>
      simp [allocateItem, Store.alloc_func_type, Store.alloc_host_func] at h
      rw [← h.1]
  | global n gt iv =>
      simp [allocateItem, Store.alloc_global] at h
      rw [← h.1]
  | memory n mt =>
      simp only [allocateItem, Store.alloc_memory] at h
      split at h
      · simp [Except.map] at h
        rw [← h.1]
      · simp [Except.map] at h
  | table n tt =>
      simp only [allocateItem, Store.alloc_table] at h
      split at h
      · simp [Except.map] at h
        rw [← h.1]
      · simp [Except.map] at h

/-- When the allocation loop ends in a failure, the store it returns has
the module registry it started with: `add_module_instance` was never
invoked. -/
theorem allocateGo_error_modules {C : Type} {I : C → Type}
    (l : List (HostItem C I)) (store stF : Store C I)
    (exports : ExportMap) (e : Error)
    (h : allocateGo store exports l = (stF, .error e)) :
    stF.modules = store.modules := by
  induction l generalizing store exports with
  | nil =>
      simp [allocateGo] at h
  | cons item rest ih =>
      rw [allocateGo] at h
      cases hi : allocateItem store item with
      | error e0 =>
          rw [hi] at h
          obtain ⟨h1, _⟩ := Prod.mk.injEq .. ▸ h
          rw [h1]
      | ok r =>
          rw [hi] at h
          have hm := allocateItem_modules store r.1 item r.2 (by rw [hi])
          rw [ih r.1 (insertExport exports item.name r.2) h, hm]

/-- Unrolling the allocation loop across a fully successful item
sequence: the loop continues on the remaining items from the store the
sequence produced, with some accumulated export mapping. -/
theorem allocateGo_append {C : Type} {I : C → Type}
    (l1 : List (HostItem C I)) (l2 : List (HostItem C I))
    (store store1 : Store C I) (exports : ExportMap)
    (h : runItems store l1 = .ok store1) :
    ∃ exports1, allocateGo store exports (l1 ++ l2) =
      allocateGo store1 exports1 l2 := by
  induction l1 generalizing store exports with
  | nil =>
      simp [runItems] at h
      exact ⟨exports, by rw [h]; rfl⟩
  | cons item rest ih =>
      rw [runItems] at h
      cases hi : allocateItem store item with
      | error e0 => rw [hi] at h; exact absurd h (by simp)
      | ok r =>
          rw [hi] at h
          rw [List.cons_append, allocateGo, hi]
          exact ih r.1 (insertExport exports item.name r.2) h

/-- C4: when a memory or table item's store allocation fails after a
successful prefix, `allocate` stops there and returns that failure
unchanged, together with the store exactly as the prefix left it — the
prefix's allocations remain in effect, nothing is rolled back. -/
theorem c4_first_failure_no_rollback {C : Type} {I : C → Type}
    (l1 l2 : List (HostItem C I)) (item : HostItem C I)
    (st0 st1 : Store C I) (e : Error)
    (hpre : runItems st0 l1 = .ok st1)
    (hfail : (∃ nm mt, item = .memory nm mt ∧ st1.alloc_memory mt = .error e)
           ∨ (∃ nm tt, item = .table nm tt ∧ st1.alloc_table tt = .error e)) :
    (HostModule.mk (l1 ++ item :: l2)).allocate st0 = (st1, .error e) := by
  obtain ⟨exports1, hGo⟩ := allocateGo_append l1 (item :: l2) st0 st1 [] hpre
  rw [HostModule.allocate, hGo, allocateGo]
  have hitem : allocateItem st1 item = .error e := by
    rcases hfail with ⟨nm, mt, hit, hm⟩ | ⟨nm, tt, hit, hm⟩ <;>
      rw [hit] <;> simp [allocateItem, hm, Except.map]
  rw [hitem]

/-- Witness for C4: a global allocated first stays in the store when the
following memory item (minimum 5 over maximum 2) fails registration. -/
theorem c4_witness :
    (HostModule.mk (C := DemoCode) (I := demoInterp)
        ([HostItem.global "g" ⟨ValueType.I32, false⟩ (RuntimeValue.I32 0)] ++
          HostItem.memory "m" ⟨5, some 2⟩ :: [])).allocate
        (Store.empty DemoCode demoInterp) =
      (⟨[], [], [(⟨ValueType.I32, false⟩, RuntimeValue.I32 0)], [], [], []⟩,
        .error ⟨"memory: minimum exceeds maximum"⟩) :=
  c4_first_failure_no_rollback
    [HostItem.global "g" ⟨ValueType.I32, false⟩ (RuntimeValue.I32 0)] []
    (HostItem.memory "m" ⟨5, some 2⟩) (Store.empty DemoCode demoInterp)
    ⟨[], [], [(⟨ValueType.I32, false⟩, RuntimeValue.I32 0)], [], [], []⟩
    ⟨"memory: minimum exceeds maximum"⟩ rfl
    (Or.inl ⟨"m", ⟨5, some 2⟩, rfl, rfl⟩)

/-- C9: whenever registration of a host module fails, the store's module
registry is untouched — no module instance was constructed or
registered, and a module identifier is produced only on a fully
successful pass. -/
theorem c9_no_module_on_failure {C : Type} {I : C → Type}
    (m : HostModule C I) (st0 stF : Store C I) (e : Error)
    (h : m.allocate st0 = (stF, .error e)) :
    stF.modules = st0.modules :=
  allocateGo_error_modules m.items st0 stF [] e h

/-- Witness for C9: a module whose single memory item fails registration
on the empty store leaves the module registry as it started. -/
theorem c9_witness :
    (Store.empty DemoCode demoInterp).modules =
      (Store.empty DemoCode demoInterp).modules :=
  c9_no_module_on_failure
    (HostModule.mk [HostItem.memory "m" ⟨5, some 2⟩])
    (Store.empty DemoCode demoInterp) (Store.empty DemoCode demoInterp)
    ⟨"memory: minimum exceeds maximum"⟩ rfl

/-- C3: two items registered under the same export name are never
rejected at build or registration time: registration succeeds, and the
resulting module instance's export mapping holds exactly one entry
under that name — the Export Identifier allocated for the
later-registered item. -/
theorem c3_duplicate_export_last_wins {C : Type} {I : C → Type}
    (i1 i2 : HostItem C I) (n : String) (st0 st1 st2 : Store C I)
    (e1 e2 : ExternVal)
    (h1 : i1.name = n) (h2 : i2.name = n)
    (ha1 : allocateItem st0 i1 = .ok (st1, e1))
    (ha2 : allocateItem st1 i2 = .ok (st2, e2)) :
    ∃ stF id inst,
      (HostModule.mk [i1, i2]).allocate st0 = (stF, Except.ok id)
      ∧ stF.getModule id = some inst
      ∧ inst.exports = [(n, e2)]
      ∧ countName inst.exports n = 1
      ∧ List.lookup n inst.exports = some e2 := by
  refine ⟨{ st2 with modules := st2.modules ++ [ModuleInstance.with_exports [(n, e2)]] },
    st2.modules.length, ModuleInstance.with_exports [(n, e2)], ?_, ?_, rfl, ?_, ?_⟩
  · simp [HostModule.allocate, allocateGo, ha1, ha2, h1, h2, insertExport,
      Store.add_module_instance, ModuleInstance.with_exports]
  · simp [Store.getModule, ModuleInstance.with_exports, List.getElem?_concat_length]
  · simp [countName, ModuleInstance.with_exports, List.filter]
  · simp [ModuleInstance.with_exports, List.lookup]

/-- Witness for C3: two globals both exported as `x`; the mapping keeps
one entry, the identifier of the second global. -/
theorem c3_witness :
    ∃ stF id inst,
      (HostModule.mk (C := DemoCode) (I := demoInterp)
          [HostItem.global "x" ⟨ValueType.I32, false⟩ (RuntimeValue.I32 1),
           HostItem.global "x" ⟨ValueType.I32, true⟩ (RuntimeValue.I32 2)]).allocate
          (Store.empty DemoCode demoInterp) = (stF, Except.ok id)
      ∧ stF.getModule id = some inst
      ∧ inst.exports = [("x", ExternVal.global 1)]
      ∧ countName inst.exports "x" = 1
      ∧ List.lookup "x" inst.exports = some (ExternVal.global 1) :=
  c3_duplicate_export_last_wins
    (HostItem.global "x" ⟨ValueType.I32, false⟩ (RuntimeValue.I32 1))
    (HostItem.global "x" ⟨ValueType.I32, true⟩ (RuntimeValue.I32 2)) "x"
    (Store.empty DemoCode demoInterp)
    ⟨[], [], [(⟨ValueType.I32, false⟩, RuntimeValue.I32 1)], [], [], []⟩
    ⟨[], [], [(⟨ValueType.I32, false⟩, RuntimeValue.I32 1),
       (⟨ValueType.I32, true⟩, RuntimeValue.I32 2)], [], [], []⟩
    (ExternVal.global 0) (ExternVal.global 1) rfl rfl rfl rfl

/-- Witness for C8: the concrete `add_one` wrapper, the matching unit
host state and the well-typed singleton argument `I32 5`. -/
theorem c8_witness :
    ∃ r, (Func1.mk (C := DemoCode) (I := demoInterp) (s := DemoCode.unitSt)
        addOneCl).call_as_any ⟨DemoCode.unitSt, ()⟩ [RuntimeValue.I32 5] =
      PanicOr.value r :=
  c8_call_as_any_total (Func1.mk addOneCl) ⟨DemoCode.unitSt, ()⟩
    [RuntimeValue.I32 5] rfl rfl

end HostSpec
